import Mathlib

/-!
Shallow embedding of the per-tick character locomotion core of the
repository (src/movement/general_movement.rs) and of the animation link
discovery pass (src/spawning/animation_link.rs).

Scalars are modelled as rationals (exact arithmetic); `Vec3` mirrors the
3-component vector type used by the source. Each ECS system is embedded as
a pure function acting on the components of one body, since every system
iterates its query body by body with no cross-body interaction.
-/

namespace Foxtrot

/-- Three-component vector, mirroring `bevy::math::Vec3` as used by the
movement code, with rational components. -/
structure Vec3 where
  x : ℚ
  y : ℚ
  z : ℚ
deriving DecidableEq, Repr

def Vec3.zero : Vec3 := ⟨0, 0, 0⟩

/-- The world up axis `Vec3::Y`. -/
def Vec3.unitY : Vec3 := ⟨0, 1, 0⟩

instance : Add Vec3 := ⟨fun a b => ⟨a.x + b.x, a.y + b.y, a.z + b.z⟩⟩
instance : Sub Vec3 := ⟨fun a b => ⟨a.x - b.x, a.y - b.y, a.z - b.z⟩⟩
instance : Neg Vec3 := ⟨fun a => ⟨-a.x, -a.y, -a.z⟩⟩
instance : HMul Vec3 ℚ Vec3 := ⟨fun v c => ⟨v.x * c, v.y * c, v.z * c⟩⟩
instance : HMul ℚ Vec3 Vec3 := ⟨fun c v => ⟨c * v.x, c * v.y, c * v.z⟩⟩
instance : HDiv Vec3 ℚ Vec3 := ⟨fun v c => ⟨v.x / c, v.y / c, v.z / c⟩⟩

@[ext] lemma Vec3.ext_fields (a b : Vec3) (hx : a.x = b.x) (hy : a.y = b.y)
    (hz : a.z = b.z) : a = b := by
  cases a; cases b; simp_all

@[simp] lemma Vec3.add_x (a b : Vec3) : (a + b).x = a.x + b.x := rfl
@[simp] lemma Vec3.add_y (a b : Vec3) : (a + b).y = a.y + b.y := rfl
@[simp] lemma Vec3.add_z (a b : Vec3) : (a + b).z = a.z + b.z := rfl
@[simp] lemma Vec3.sub_x (a b : Vec3) : (a - b).x = a.x - b.x := rfl
@[simp] lemma Vec3.sub_y (a b : Vec3) : (a - b).y = a.y - b.y := rfl
@[simp] lemma Vec3.sub_z (a b : Vec3) : (a - b).z = a.z - b.z := rfl
@[simp] lemma Vec3.neg_x (a : Vec3) : (-a).x = -a.x := rfl
@[simp] lemma Vec3.neg_y (a : Vec3) : (-a).y = -a.y := rfl
@[simp] lemma Vec3.neg_z (a : Vec3) : (-a).z = -a.z := rfl
@[simp] lemma Vec3.mulr_x (v : Vec3) (c : ℚ) : (v * c).x = v.x * c := rfl
@[simp] lemma Vec3.mulr_y (v : Vec3) (c : ℚ) : (v * c).y = v.y * c := rfl
@[simp] lemma Vec3.mulr_z (v : Vec3) (c : ℚ) : (v * c).z = v.z * c := rfl
@[simp] lemma Vec3.mull_x (c : ℚ) (v : Vec3) : (c * v).x = c * v.x := rfl
@[simp] lemma Vec3.mull_y (c : ℚ) (v : Vec3) : (c * v).y = c * v.y := rfl
@[simp] lemma Vec3.mull_z (c : ℚ) (v : Vec3) : (c * v).z = c * v.z := rfl
@[simp] lemma Vec3.div_x (v : Vec3) (c : ℚ) : (v / c).x = v.x / c := rfl
@[simp] lemma Vec3.div_y (v : Vec3) (c : ℚ) : (v / c).y = v.y / c := rfl
@[simp] lemma Vec3.div_z (v : Vec3) (c : ℚ) : (v / c).z = v.z / c := rfl
@[simp] lemma Vec3.zero_x : Vec3.zero.x = 0 := rfl
@[simp] lemma Vec3.zero_y : Vec3.zero.y = 0 := rfl
@[simp] lemma Vec3.zero_z : Vec3.zero.z = 0 := rfl

def Vec3.dot (a b : Vec3) : ℚ := a.x * b.x + a.y * b.y + a.z * b.z

def Vec3.length_squared (v : Vec3) : ℚ := v.x * v.x + v.y * v.y + v.z * v.z

/-- Modelled from the spec: the epsilon of the approximate-zero test of the
`Vec3Ext` trait extension (its source file is not in src/); §4.8 and §4.9
of the spec speak of "a small epsilon". -/
def EPSILON : ℚ := 1 / 100000

/-- Modelled from the spec: `Vec3Ext::x0z` (trait extension source not in
src/): the horizontal component of a vector, the vertical axis zeroed. -/
def Vec3.x0z (v : Vec3) : Vec3 := ⟨v.x, 0, v.z⟩

/-- Modelled from the spec: `Vec3Ext::is_approx_zero` (trait extension
source not in src/): whether the vector is within a small epsilon of the
zero vector, compared via squared length. -/
def Vec3.is_approx_zero (v : Vec3) : Bool := decide (v.length_squared < EPSILON)

/-- Modelled from the spec: the `Grounded` component of the missing
`movement::components` module; §3: boolean grounded/airborne
classification. -/
structure Grounded where
  grounded : Bool
deriving DecidableEq, Repr

def Grounded.is_grounded (g : Grounded) : Bool := g.grounded

/-- Modelled from the spec: `Grounded::try_set` of the missing
`movement::components` module; §4.1: "overwrite GroundContact with that
boolean". -/
def Grounded.try_set (_g : Grounded) (value : Bool) : Grounded := ⟨value⟩

/-- Modelled from the spec: the `Jump` component (JumpIntent) of the
missing `movement::components` module; §3: gravitational constant `g`,
impulse magnitude, transient `requested` flag. -/
structure Jump where
  g : ℚ
  impulse : ℚ
  requested : Bool
deriving DecidableEq, Repr

/-- Modelled from the spec: the `Walker` component (WalkIntent) of the
missing `movement::components` module; §3: optional horizontal direction
vector plus acceleration parameters. -/
structure Walker where
  direction : Option Vec3
  ground_acceleration : ℚ
  air_acceleration : ℚ
deriving DecidableEq, Repr

/-- Modelled from the spec: `Walker::calculate_acceleration` of the missing
`movement::components` module; §4.3: none when no direction is set,
otherwise a pure function of (direction, grounded) with ground-state
dependent authority. -/
def Walker.calculate_acceleration (w : Walker) (grounded : Bool) : Option Vec3 :=
  w.direction.map fun direction =>
    (if grounded then w.ground_acceleration else w.air_acceleration) * direction

/-- Modelled from the spec: the `Drag` component (DragModel) of the missing
`movement::components` module; §3: drag coefficients for a force opposing
current velocity. -/
structure Drag where
  coefficient : ℚ
deriving DecidableEq, Repr

/-- Modelled from the spec: `Drag::calculate_force` of the missing
`movement::components` module; §4.5: a force anti-parallel to velocity,
zero at zero velocity, magnitude growing with speed — embedded as the
linear law, the exact force law being left open by the spec (§9). -/
def Drag.calculate_force (drag : Drag) (velocity : Vec3) : Vec3 :=
  -(drag.coefficient * velocity)

/-- The fields of `bevy_rapier3d::KinematicCharacterController` read or
written by the movement systems: the up axis and the requested
translation handed to the external controller. -/
structure KinematicCharacterController where
  up : Vec3
  translation : Option Vec3
deriving DecidableEq, Repr

/-- The fields of `bevy_rapier3d::KinematicCharacterControllerOutput` read
by the movement systems: the resolved (effective) translation and the
grounded flag reported by the external controller. -/
structure KinematicCharacterControllerOutput where
  effective_translation : Vec3
  grounded : Bool
deriving DecidableEq, Repr

/-- The `CharacterAnimations` component: three clip handles, modelled as
identifiers. -/
structure CharacterAnimations where
  idle : Nat
  walk : Nat
  aerial : Nat
deriving DecidableEq, Repr

/-- The observable effect of `AnimationPlayer::play(..).repeat()`: which
clip handle is played and that it loops. -/
structure PlayedAnimation where
  clip : Nat
  looping : Bool
deriving DecidableEq, Repr

/-- Modelled from the spec: bevy's `Transform` of the linked presentation
entity (external library); the rotation is represented by the forward and
up directions that determine it. -/
structure Transform where
  translation : Vec3
  forward : Vec3
  up : Vec3
deriving DecidableEq, Repr

/-- Modelled from the spec: bevy's `Transform::looking_at` (external
library): reorient the transform so its forward direction points at the
target, with the given up reference; translation is untouched. -/
def Transform.looking_at (t : Transform) (target : Vec3) (up : Vec3) : Transform :=
  { t with forward := target - t.translation, up := up }

/-- System `update_grounded` of general_movement.rs, per body. -/
def update_grounded (grounded : Grounded)
    (output : KinematicCharacterControllerOutput) : Grounded :=
  grounded.try_set output.grounded

/-- System `apply_gravity` of general_movement.rs, per body: add the
gravitational force to the force accumulator. -/
def apply_gravity (force : Vec3) (controller : KinematicCharacterController)
    (mass : ℚ) (jump : Jump) : Vec3 :=
  let gravitational_force := -controller.up * jump.g * mass
  force + gravitational_force

/-- System `apply_force` of general_movement.rs, per body: integrate the
accumulated force; returns the updated velocity and the controller with
its requested translation set. -/
def apply_force (dt : ℚ) (force : Vec3) (velocity : Vec3)
    (controller : KinematicCharacterController) (mass : ℚ) :
    Vec3 × KinematicCharacterController :=
  let acceleration := force / mass
  let desired_translation := velocity * dt + ((1 : ℚ)/2) * acceleration * dt * dt
  (velocity + acceleration * dt, { controller with translation := some desired_translation })

/-- System `reset_movement_components` of general_movement.rs, per body:
zero the force accumulator, clear the walk direction, clear the jump
request. -/
def reset_movement_components (_force : Vec3) (walker : Walker) (jump : Jump) :
    Vec3 × Walker × Jump :=
  (Vec3.zero, { walker with direction := none }, { jump with requested := false })

/-- System `apply_jumping` of general_movement.rs, per body: when a jump is
requested and the body is grounded, add the impulse scaled by 1/dt to the
force accumulator. -/
def apply_jumping (dt : ℚ) (grounded : Grounded) (force : Vec3)
    (controller : KinematicCharacterController) (jump : Jump) : Vec3 :=
  if jump.requested && grounded.is_grounded then
    force + controller.up * jump.impulse / dt
  else
    force

/-- System `rotate_model` of general_movement.rs, per body: acting on the
transform of the linked presentation entity. -/
def rotate_model (output : KinematicCharacterControllerOutput)
    (transform : Transform) : Transform :=
  let horizontal_movement := output.effective_translation.x0z
  if horizontal_movement.is_approx_zero then
    transform
  else
    transform.looking_at (transform.translation + horizontal_movement) Vec3.unitY

/-- System `play_animations` of general_movement.rs, per body: select the
clip to loop on the linked animation player. -/
def play_animations (output : KinematicCharacterControllerOutput)
    (grounded : Grounded) (animations : CharacterAnimations) : PlayedAnimation :=
  let has_horizontal_movement := !output.effective_translation.x0z.is_approx_zero
  if !grounded.is_grounded then
    ⟨animations.aerial, true⟩
  else if has_horizontal_movement then
    ⟨animations.walk, true⟩
  else
    ⟨animations.idle, true⟩

/-- System `apply_drag` of general_movement.rs, per body: add the drag
force to the force accumulator. -/
def apply_drag (force : Vec3) (velocity : Vec3) (drag : Drag) : Vec3 :=
  let drag_force := drag.calculate_force velocity
  force + drag_force

/-- System `apply_walking` of general_movement.rs, per body: when the walk
model yields an acceleration, add the walking force to the accumulator. -/
def apply_walking (force : Vec3) (walker : Walker) (grounded : Grounded)
    (mass : ℚ) : Vec3 :=
  match walker.calculate_acceleration grounded.is_grounded with
  | some acceleration => force + acceleration * mass
  | none => force

/-- Entity identifiers of the ECS, modelled as naturals. -/
abbrev Entity := Nat

/-- Loop body of `get_top_parent` of spawning/animation_link.rs: walk the
parent chain keeping the last two visited entities; the source loop is
embedded with explicit fuel since the ECS guarantees the hierarchy is
finite and acyclic. The pair holds (current candidate, entity below it). -/
def get_top_parent_loop (parent_query : Entity → Option Entity) :
    Nat → Entity × Entity → Entity × Entity
  | 0, last_two => last_two
  | Nat.succ fuel, last_two =>
    match parent_query last_two.1 with
    | some parent => get_top_parent_loop parent_query fuel (parent, last_two.1)
    | none => last_two

/-- Function `get_top_parent` of spawning/animation_link.rs: the entity one
below the top of the parent chain (the top parent being an organizational
node). -/
def get_top_parent (fuel : Nat) (curr_entity : Entity)
    (parent_query : Entity → Option Entity) : Entity :=
  (get_top_parent_loop parent_query fuel (curr_entity, curr_entity)).2

/-- One iteration of the loop of `link_animations` of
spawning/animation_link.rs: `links` is the query snapshot taken before the
system ran, `acc` carries the pending link insertions applied after it and
the warnings emitted so far. -/
def link_animations_step (fuel : Nat) (parent_query : Entity → Option Entity)
    (links : Entity → Option Entity)
    (acc : (Entity → Option Entity) × List Entity) (entity : Entity) :
    (Entity → Option Entity) × List Entity :=
  let top_entity := get_top_parent fuel entity parent_query
  if (links top_entity).isSome then
    (acc.1, acc.2 ++ [top_entity])
  else
    (fun e => if e = top_entity then some entity else acc.1 e, acc.2)

/-- System `link_animations` of spawning/animation_link.rs: for each newly
added animation player, link its top-level ancestor to it unless that
ancestor already carries a link, in which case only a warning is emitted.
Returns the link table after the deferred commands are applied, and the
list of warned-about ancestors. -/
def link_animations (fuel : Nat) (parent_query : Entity → Option Entity)
    (links : Entity → Option Entity) (new_players : List Entity) :
    (Entity → Option Entity) × List Entity :=
  new_players.foldl (link_animations_step fuel parent_query links) (links, [])

/-- C2: the motion integrator computes acceleration as ForceAccumulator
divided by mass, hands velocity * dt + 0.5 * acceleration * dt² to the
external controller as the requested translation, and updates velocity to
velocity + acceleration * dt, with the pre-integration velocity on all
right-hand sides. -/
theorem motion_integrator_semantics (dt : ℚ) (force velocity : Vec3)
    (controller : KinematicCharacterController) (mass : ℚ) :
    (apply_force dt force velocity controller mass).1
      = velocity + (force / mass) * dt
    ∧ (apply_force dt force velocity controller mass).2.translation
      = some (velocity * dt + ((1 : ℚ)/2) * ((force / mass) * (dt * dt)))
    ∧ (apply_force dt force velocity controller mass).2.up = controller.up := by
  refine ⟨rfl, ?_, rfl⟩
  have h : (apply_force dt force velocity controller mass).2.translation
      = some (velocity * dt + ((1 : ℚ)/2) * (force / mass) * dt * dt) := rfl
  rw [h, Option.some_inj]
  ext <;> simp <;> ring

lemma apply_force_velocity_eq (dt : ℚ) (force velocity : Vec3)
    (controller : KinematicCharacterController) (mass : ℚ) :
    (apply_force dt force velocity controller mass).1
      = velocity + (force / mass) * dt := rfl

lemma apply_force_translation_eq (dt : ℚ) (force velocity : Vec3)
    (controller : KinematicCharacterController) (mass : ℚ) :
    (apply_force dt force velocity controller mass).2.translation
      = some (velocity * dt + ((1 : ℚ)/2) * (force / mass) * dt * dt) := rfl

/-- C3: the gravity stage adds exactly -up * g * mass to the force
accumulator, with g taken from the body's Jump component; a gravity-only
tick with mass 2, g 49/5, zero initial velocity and dt 1/10 yields
velocity.y = -49/50 and requested displacement.y = -49/1000 exactly. -/
theorem gravity_stage_semantics :
    (∀ (force : Vec3) (controller : KinematicCharacterController) (mass : ℚ) (jump : Jump),
      apply_gravity force controller mass jump = force + -controller.up * jump.g * mass)
    ∧ ((apply_force (1/10)
          (apply_gravity Vec3.zero ⟨Vec3.unitY, none⟩ 2 ⟨49/5, 0, false⟩)
          Vec3.zero ⟨Vec3.unitY, none⟩ 2).1.y = -(49/50)
      ∧ (apply_force (1/10)
          (apply_gravity Vec3.zero ⟨Vec3.unitY, none⟩ 2 ⟨49/5, 0, false⟩)
          Vec3.zero ⟨Vec3.unitY, none⟩ 2).2.translation
        = some ⟨0, -(49/1000), 0⟩) := by
  refine ⟨fun force controller mass jump => rfl, ?_, ?_⟩
  · rw [apply_force_velocity_eq]
    simp [apply_gravity, Vec3.unitY, Vec3.zero]
    norm_num
  · rw [apply_force_translation_eq, Option.some_inj]
    ext <;> norm_num [apply_gravity, Vec3.unitY, Vec3.zero]

/-- C4: the transient state reset unconditionally zeroes the force
accumulator, clears the walk direction and clears the jump request,
regardless of the prior values of all three components. -/
theorem transient_state_reset_unconditional (force : Vec3) (walker : Walker)
    (jump : Jump) :
    (reset_movement_components force walker jump).1 = Vec3.zero
    ∧ (reset_movement_components force walker jump).2.1.direction = none
    ∧ (reset_movement_components force walker jump).2.2.requested = false :=
  ⟨rfl, rfl, rfl⟩

/-- C9: the ground contact tracker overwrites the Grounded classification
with the controller's reported grounded boolean, unconditionally: the
prior value never survives a tick in which feedback is available. -/
theorem ground_contact_overwrite (grounded : Grounded)
    (output : KinematicCharacterControllerOutput) :
    update_grounded grounded output = ⟨output.grounded⟩ := rfl

/-- C1: for any dt > 0, the velocity change attributable to the jump stage
alone (the integrated velocity with the jump contribution minus the
integrated velocity without it) equals up * impulse / mass when the jump
is requested and the body is grounded, and the zero vector otherwise; the
firing-case value is independent of dt. -/
theorem jump_impulse_velocity_change (dt : ℚ) (hdt : 0 < dt)
    (grounded : Grounded) (force : Vec3)
    (controller : KinematicCharacterController) (jump : Jump)
    (velocity : Vec3) (mass : ℚ) :
    (apply_force dt (apply_jumping dt grounded force controller jump)
        velocity controller mass).1
      - (apply_force dt force velocity controller mass).1
    = if jump.requested && grounded.is_grounded
        then controller.up * jump.impulse / mass
        else Vec3.zero := by
  by_cases h : jump.requested && grounded.is_grounded
  · simp only [apply_jumping, h, if_true, apply_force]
    rcases eq_or_ne mass 0 with hm | hm
    · subst hm
      ext <;> simp [div_zero]
    · ext <;> simp <;> field_simp <;> ring
  · simp only [apply_jumping, h, if_false, apply_force]
    ext <;> simp

/-- Witness for C1 at dt = 1/10, mass 1, impulse 5, grounded and
requested. -/
theorem jump_impulse_velocity_change_witness :
    (apply_force (1/10)
        (apply_jumping (1/10) ⟨true⟩ Vec3.zero ⟨Vec3.unitY, none⟩ ⟨49/5, 5, true⟩)
        Vec3.zero ⟨Vec3.unitY, none⟩ 1).1
      - (apply_force (1/10) Vec3.zero Vec3.zero ⟨Vec3.unitY, none⟩ 1).1
    = Vec3.unitY * (5 : ℚ) / (1 : ℚ) := by
  have h := jump_impulse_velocity_change (1/10) (by norm_num) ⟨true⟩ Vec3.zero
    ⟨Vec3.unitY, none⟩ ⟨49/5, 5, true⟩ Vec3.zero 1
  simpa using h

/-- C5 counterexample: the integrator processes a body of mass -1 without
any guard and silently produces a definite velocity, contradicting the
claim that division with nonpositive mass never occurs and must be fatal
for the body. -/
theorem mass_guard_counterexample :
    (apply_force 1 ⟨0, 1, 0⟩ Vec3.zero ⟨Vec3.unitY, none⟩ (-1)).1
      = ⟨0, -1, 0⟩ := by
  rw [apply_force_velocity_eq]
  ext <;> simp

/-- C5 amended: the integrator contains no positivity check on mass; even
for a body with negative mass the division is performed and the body is
silently processed with the usual integration formula. -/
theorem apply_force_processes_nonpositive_mass (dt : ℚ) (force velocity : Vec3)
    (controller : KinematicCharacterController) (mass : ℚ) (_hmass : mass < 0) :
    (apply_force dt force velocity controller mass).1
      = velocity + (force / mass) * dt
    ∧ (apply_force dt force velocity controller mass).2.translation
      = some (velocity * dt + ((1 : ℚ)/2) * (force / mass) * dt * dt) :=
  ⟨rfl, rfl⟩

/-- Witness for the amended C5 at mass -1. -/
theorem apply_force_processes_nonpositive_mass_witness :
    (-1 : ℚ) < 0
    ∧ ((apply_force 1 ⟨0, 1, 0⟩ Vec3.zero ⟨Vec3.unitY, none⟩ (-1)).1
        = Vec3.zero + ((⟨0, 1, 0⟩ : Vec3) / (-1 : ℚ)) * (1 : ℚ)
      ∧ (apply_force 1 ⟨0, 1, 0⟩ Vec3.zero ⟨Vec3.unitY, none⟩ (-1)).2.translation
        = some (Vec3.zero * (1 : ℚ)
            + ((1 : ℚ)/2) * ((⟨0, 1, 0⟩ : Vec3) / (-1 : ℚ)) * (1 : ℚ) * (1 : ℚ))) :=
  ⟨by norm_num,
   apply_force_processes_nonpositive_mass 1 ⟨0, 1, 0⟩ Vec3.zero
     ⟨Vec3.unitY, none⟩ (-1) (by norm_num)⟩

/-- C6: the animation selector picks exactly one looping clip by the fixed
priority: airborne plays the aerial clip regardless of horizontal motion;
grounded with horizontal resolved displacement at least epsilon (in
squared length) plays the walk clip; grounded and within epsilon plays the
idle clip. -/
theorem animation_priority (output : KinematicCharacterControllerOutput)
    (grounded : Grounded) (animations : CharacterAnimations) :
    (grounded.is_grounded = false →
      play_animations output grounded animations = ⟨animations.aerial, true⟩)
    ∧ (grounded.is_grounded = true →
        EPSILON ≤ output.effective_translation.x0z.length_squared →
        play_animations output grounded animations = ⟨animations.walk, true⟩)
    ∧ (grounded.is_grounded = true →
        output.effective_translation.x0z.length_squared < EPSILON →
        play_animations output grounded animations = ⟨animations.idle, true⟩) := by
  refine ⟨fun hg => ?_, fun hg hm => ?_, fun hg hm => ?_⟩
  · simp [play_animations, hg]
  · simp [play_animations, hg, Vec3.is_approx_zero, not_lt.mpr hm]
  · simp [play_animations, hg, Vec3.is_approx_zero, hm]

/-- Witness for C6: an airborne body with nonzero horizontal resolved
displacement still selects the aerial clip. -/
theorem animation_priority_witness :
    Grounded.is_grounded ⟨false⟩ = false
    ∧ play_animations ⟨⟨1, 0, 0⟩, false⟩ ⟨false⟩ ⟨1, 2, 3⟩
      = ⟨CharacterAnimations.aerial ⟨1, 2, 3⟩, true⟩ :=
  ⟨rfl, (animation_priority ⟨⟨1, 0, 0⟩, false⟩ ⟨false⟩ ⟨1, 2, 3⟩).1 rfl⟩

/-- C7: when the horizontal resolved displacement is within epsilon of
zero (in squared length), the model-rotation stage leaves the linked
transform completely unchanged; only when it reaches epsilon is the
transform re-oriented to look along the direction of travel. -/
theorem facing_orientation_epsilon (output : KinematicCharacterControllerOutput)
    (transform : Transform) :
    (output.effective_translation.x0z.length_squared < EPSILON →
      rotate_model output transform = transform)
    ∧ (EPSILON ≤ output.effective_translation.x0z.length_squared →
      rotate_model output transform
        = transform.looking_at
            (transform.translation + output.effective_translation.x0z)
            Vec3.unitY) := by
  constructor
  · intro hm
    simp [rotate_model, Vec3.is_approx_zero, hm]
  · intro hm
    simp [rotate_model, Vec3.is_approx_zero, not_lt.mpr hm]

/-- Witness for C7: a tick with zero resolved displacement leaves a
concrete transform unchanged. -/
theorem facing_orientation_epsilon_witness :
    Vec3.length_squared (Vec3.x0z ⟨0, 0, 0⟩) < EPSILON
    ∧ rotate_model ⟨⟨0, 0, 0⟩, true⟩ ⟨⟨1, 2, 3⟩, ⟨0, 0, 1⟩, ⟨0, 1, 0⟩⟩
      = ⟨⟨1, 2, 3⟩, ⟨0, 0, 1⟩, ⟨0, 1, 0⟩⟩ :=
  ⟨by norm_num [Vec3.x0z, Vec3.length_squared, EPSILON],
   (facing_orientation_epsilon ⟨⟨0, 0, 0⟩, true⟩ ⟨⟨1, 2, 3⟩, ⟨0, 0, 1⟩, ⟨0, 1, 0⟩⟩).1
     (by norm_num [Vec3.x0z, Vec3.length_squared, EPSILON])⟩

/-- C8: with a nonnegative drag coefficient, the drag stage's contribution
to the force accumulator has nonpositive dot product with the
pre-integration velocity, and the contribution at zero velocity is the
zero vector (the accumulator is returned unchanged). -/
theorem drag_opposes_velocity (force velocity : Vec3) (drag : Drag)
    (hc : 0 ≤ drag.coefficient) :
    Vec3.dot (apply_drag force velocity drag - force) velocity ≤ 0
    ∧ apply_drag force Vec3.zero drag = force := by
  constructor
  · simp only [apply_drag, Drag.calculate_force, Vec3.dot, Vec3.add_x, Vec3.add_y,
      Vec3.add_z, Vec3.sub_x, Vec3.sub_y, Vec3.sub_z, Vec3.neg_x, Vec3.neg_y,
      Vec3.neg_z, Vec3.mull_x, Vec3.mull_y, Vec3.mull_z]
    nlinarith [mul_nonneg hc (mul_self_nonneg velocity.x),
      mul_nonneg hc (mul_self_nonneg velocity.y),
      mul_nonneg hc (mul_self_nonneg velocity.z)]
  · ext <;> simp [apply_drag, Drag.calculate_force]

/-- Witness for C8 with coefficient 1 and velocity (1, 2, 3). -/
theorem drag_opposes_velocity_witness :
    (0 : ℚ) ≤ Drag.coefficient ⟨1⟩
    ∧ (Vec3.dot (apply_drag ⟨0, 0, 0⟩ ⟨1, 2, 3⟩ ⟨1⟩ - ⟨0, 0, 0⟩) ⟨1, 2, 3⟩ ≤ 0
      ∧ apply_drag ⟨0, 0, 0⟩ Vec3.zero ⟨1⟩ = ⟨0, 0, 0⟩) :=
  ⟨by norm_num, drag_opposes_velocity ⟨0, 0, 0⟩ ⟨1, 2, 3⟩ ⟨1⟩ (by norm_num)⟩

lemma link_animations_foldl_preserves (fuel : Nat)
    (parent_query : Entity → Option Entity) (links : Entity → Option Entity)
    (top e : Entity) (hl : links top = some e) :
    ∀ (players : List Entity) (acc : (Entity → Option Entity) × List Entity),
      acc.1 top = some e →
      (players.foldl (link_animations_step fuel parent_query links) acc).1 top
        = some e := by
  intro players
  induction players with
  | nil => intro acc hacc; simpa using hacc
  | cons p ps ih =>
    intro acc hacc
    rw [List.foldl_cons]
    apply ih
    unfold link_animations_step
    by_cases htop : (links (get_top_parent fuel p parent_query)).isSome
    · simpa [htop] using hacc
    · simp only [htop, Bool.false_eq_true, if_false]
      by_cases heq : top = get_top_parent fuel p parent_query
      · rw [heq] at hl
        rw [hl] at htop
        simp at htop
      · simpa [heq] using hacc

/-- C10: once a top-level ancestor carries an AnimationEntityLink, a later
run of the link-discovery pass never overwrites it: whatever newly added
animation players resolve to it, the existing link value survives (the
colliding players only produce warnings). -/
theorem link_animations_preserves_existing (fuel : Nat)
    (parent_query : Entity → Option Entity) (links : Entity → Option Entity)
    (new_players : List Entity) (top e : Entity) (hl : links top = some e) :
    (link_animations fuel parent_query links new_players).1 top = some e := by
  unfold link_animations
  exact link_animations_foldl_preserves fuel parent_query links top e hl
    new_players (links, []) hl

def links0 : Entity → Option Entity := fun entity =>
  if entity = 5 then some 7 else none

def parent0 : Entity → Option Entity := fun entity =>
  if entity = 9 then some 5 else if entity = 5 then some 0 else none

/-- Witness for C10: entity 5 is already linked to player 7; a newly added
player 9 whose top-level ancestor is 5 does not overwrite the link. -/
theorem link_animations_preserves_existing_witness :
    links0 5 = some 7
    ∧ (link_animations 10 parent0 links0 [9]).1 5 = some 7 :=
  ⟨rfl, link_animations_preserves_existing 10 parent0 links0 [9] 5 7 rfl⟩

end Foxtrot
